import Mathlib

/-!
# Verification of the `head` table decoder of the `truetype` crate

Shallow embedding of `src/tables/head.rs` and `src/error.rs`.  Byte slices
are modelled as `List Nat` (each element a byte value `< 256`); machine
integers are `Nat`/`Int` with explicit two's-complement conversion where the
code reads signed fields.  `Cursor` + `byteorder` reads are modelled by
`readU`: a big-endian read of `count` bytes at a fixed position, failing
with `Error.Malformed` exactly when fewer than `count` bytes remain, which
is what `try!(cursor.read_*::<BigEndian>())` does after the
`From<byteorder::Error> for Error` conversion.  Since every read in
`HEAD::from_data` either succeeds (advancing the cursor by its exact size)
or aborts the whole function, the cursor position at each read is a fixed
constant and the state threading can be flattened away.
-/

namespace TrueType

/-- The crate's `Error` enum (`src/error.rs`), together with the
`UnknownLocationFormat` variant that `src/tables/head.rs` constructs and
its test observes. -/
inductive Error where
  | Malformed
  | MissingTable
  | HHEAVersionIsNotSupported
  | HEADVersionIsNotSupported
  | UnknownLocationFormat
deriving Repr, DecidableEq

/-- `types::LocationFormat`: the two-valued discriminant for the
`loca` table offset format. -/
inductive LocationFormat where
  | Short
  | Long
deriving Repr, DecidableEq

/-- The `HEAD` struct (`src/tables/head.rs`).  `Fixed` is a newtype over
`i32`, so the two `Fixed` fields are modelled directly as the wrapped
signed 32-bit value. -/
structure HEAD where
  version : Int
  font_revision : Int
  check_sum_adjustment : Nat
  magic_number : Nat
  flags : Nat
  units_per_em : Nat
  created : Int
  modified : Int
  x_min : Int
  y_min : Int
  x_max : Int
  y_max : Int
  mac_style : Nat
  lowest_rec_ppem : Nat
  font_direction_hint : Int
  index_to_loc_format : Nat
  glyph_data_format : Int
deriving Repr, DecidableEq

/-- `HEAD::default()`: Rust's derived `Default` zero-initialises every
field. -/
def HEAD.default : HEAD :=
  { version := 0, font_revision := 0, check_sum_adjustment := 0,
    magic_number := 0, flags := 0, units_per_em := 0, created := 0,
    modified := 0, x_min := 0, y_min := 0, x_max := 0, y_max := 0,
    mac_style := 0, lowest_rec_ppem := 0, font_direction_hint := 0,
    index_to_loc_format := 0, glyph_data_format := 0 }

/-- Big-endian interpretation of a list of bytes as an unsigned number. -/
def beBytesToNat (bs : List Nat) : Nat :=
  bs.foldl (fun acc b => acc * 256 + b) 0

/-- The unsigned big-endian value of the `count` bytes of `l` starting at
position `pos`. -/
def beSlice (l : List Nat) (pos count : Nat) : Nat :=
  beBytesToNat ((l.drop pos).take count)

/-- One `try!(cursor.read_uN::<BigEndian>())` at a known cursor position:
succeeds with the big-endian value of the next `count` bytes when they are
all present, otherwise fails with `Error::Malformed` (the image of any
`byteorder::Error` under the crate's `From` impl). -/
def readU (l : List Nat) (pos count : Nat) : Except Error Nat :=
  if pos + count ≤ l.length then .ok (beSlice l pos count)
  else .error .Malformed

/-- Two's-complement reading of a `w`-bit unsigned value as a signed
integer (`read_iN::<BigEndian>` on the bytes that `read_uN` would give). -/
def toSigned (w : Nat) (n : Nat) : Int :=
  if n < 2 ^ (w - 1) then (n : Int) else (n : Int) - 2 ^ w

/-- Two's-complement encoding of a signed integer as a `w`-bit unsigned
value (what `write_iN::<BigEndian>` serialises). -/
def i2n (w : Nat) (i : Int) : Nat :=
  (i % (2 ^ w : Int)).toNat

/-- `write_u16::<BigEndian>`: the two big-endian bytes of a 16-bit value. -/
def be2 (n : Nat) : List Nat :=
  [n / 2 ^ 8 % 256, n % 256]

/-- `write_u32::<BigEndian>`: the four big-endian bytes of a 32-bit value. -/
def be4 (n : Nat) : List Nat :=
  [n / 2 ^ 24 % 256, n / 2 ^ 16 % 256, n / 2 ^ 8 % 256, n % 256]

/-- `write_u64::<BigEndian>`: the eight big-endian bytes of a 64-bit value. -/
def be8 (n : Nat) : List Nat :=
  [n / 2 ^ 56 % 256, n / 2 ^ 48 % 256, n / 2 ^ 40 % 256, n / 2 ^ 32 % 256,
   n / 2 ^ 24 % 256, n / 2 ^ 16 % 256, n / 2 ^ 8 % 256, n % 256]

/-- `HEAD::from_data` (`src/tables/head.rs` lines 43–77), line for line:
the offset guard, the cursor over `&data[offset..]`, the version read and
gate, the fourteen field reads, the location-format discriminant check,
and the final field read.  Cursor positions are the accumulated field
sizes. -/
def HEAD.from_data (data : List Nat) (offset : Nat) : Except Error HEAD :=
  if offset ≥ data.length then .error .Malformed else
  let r := data.drop offset
  match readU r 0 4 with
  | .error e => .error e
  | .ok versionRaw =>
  if toSigned 32 versionRaw ≠ 0x00010000 then .error .HEADVersionIsNotSupported else
  match readU r 4 4 with
  | .error e => .error e
  | .ok font_revision =>
  match readU r 8 4 with
  | .error e => .error e
  | .ok check_sum_adjustment =>
  match readU r 12 4 with
  | .error e => .error e
  | .ok magic_number =>
  match readU r 16 2 with
  | .error e => .error e
  | .ok flags =>
  match readU r 18 2 with
  | .error e => .error e
  | .ok units_per_em =>
  match readU r 20 8 with
  | .error e => .error e
  | .ok created =>
  match readU r 28 8 with
  | .error e => .error e
  | .ok modified =>
  match readU r 36 2 with
  | .error e => .error e
  | .ok x_min =>
  match readU r 38 2 with
  | .error e => .error e
  | .ok y_min =>
  match readU r 40 2 with
  | .error e => .error e
  | .ok x_max =>
  match readU r 42 2 with
  | .error e => .error e
  | .ok y_max =>
  match readU r 44 2 with
  | .error e => .error e
  | .ok mac_style =>
  match readU r 46 2 with
  | .error e => .error e
  | .ok lowest_rec_ppem =>
  match readU r 48 2 with
  | .error e => .error e
  | .ok font_direction_hint =>
  match readU r 50 2 with
  | .error e => .error e
  | .ok index_to_loc_format =>
  if index_to_loc_format > 1 then .error .UnknownLocationFormat else
  match readU r 52 2 with
  | .error e => .error e
  | .ok glyph_data_format =>
  .ok { version := toSigned 32 versionRaw,
        font_revision := toSigned 32 font_revision,
        check_sum_adjustment := check_sum_adjustment,
        magic_number := magic_number,
        flags := flags,
        units_per_em := units_per_em,
        created := toSigned 64 created,
        modified := toSigned 64 modified,
        x_min := toSigned 16 x_min,
        y_min := toSigned 16 y_min,
        x_max := toSigned 16 x_max,
        y_max := toSigned 16 y_max,
        mac_style := mac_style,
        lowest_rec_ppem := lowest_rec_ppem,
        font_direction_hint := toSigned 16 font_direction_hint,
        index_to_loc_format := index_to_loc_format,
        glyph_data_format := toSigned 16 glyph_data_format }

/-- `HEAD::bytes` (`src/tables/head.rs` lines 80–102): big-endian
serialisation of the seventeen fields, in declaration order. -/
def HEAD.bytes (h : HEAD) : List Nat :=
  be4 (i2n 32 h.version) ++
  be4 (i2n 32 h.font_revision) ++
  be4 h.check_sum_adjustment ++
  be4 h.magic_number ++
  be2 h.flags ++
  be2 h.units_per_em ++
  be8 (i2n 64 h.created) ++
  be8 (i2n 64 h.modified) ++
  be2 (i2n 16 h.x_min) ++
  be2 (i2n 16 h.y_min) ++
  be2 (i2n 16 h.x_max) ++
  be2 (i2n 16 h.y_max) ++
  be2 h.mac_style ++
  be2 h.lowest_rec_ppem ++
  be2 (i2n 16 h.font_direction_hint) ++
  be2 h.index_to_loc_format ++
  be2 (i2n 16 h.glyph_data_format)

/-- `HEAD::units_per_em`: `self.units_per_em as f32`.  Every `u16` is
exactly representable as an `f32` (the mantissa holds 24 bits), so the
returned float is exactly the stored integer; we model it by its exact
rational value. -/
def HEAD.units_per_em_value (h : HEAD) : ℚ :=
  (h.units_per_em : ℚ)

/-- `HEAD::location_format` (`src/tables/head.rs` lines 123–129): maps the
stored discriminant to the enum; the `unreachable!()` arm is modelled as
`none`. -/
def HEAD.location_format (h : HEAD) : Option LocationFormat :=
  match h.index_to_loc_format with
  | 0 => some .Short
  | 1 => some .Long
  | _ => none

/-- The record that a successful `HEAD::from_data` run builds from region
`r` (the bytes from `offset` on): each field is the big-endian value of
its documented byte range. -/
def decodedHEAD (r : List Nat) : HEAD :=
  { version := toSigned 32 (beSlice r 0 4),
    font_revision := toSigned 32 (beSlice r 4 4),
    check_sum_adjustment := beSlice r 8 4,
    magic_number := beSlice r 12 4,
    flags := beSlice r 16 2,
    units_per_em := beSlice r 18 2,
    created := toSigned 64 (beSlice r 20 8),
    modified := toSigned 64 (beSlice r 28 8),
    x_min := toSigned 16 (beSlice r 36 2),
    y_min := toSigned 16 (beSlice r 38 2),
    x_max := toSigned 16 (beSlice r 40 2),
    y_max := toSigned 16 (beSlice r 42 2),
    mac_style := beSlice r 44 2,
    lowest_rec_ppem := beSlice r 46 2,
    font_direction_hint := toSigned 16 (beSlice r 48 2),
    index_to_loc_format := beSlice r 50 2,
    glyph_data_format := toSigned 16 (beSlice r 52 2) }

/-! ## Behaviour of `from_data`, case by case -/

theorem from_data_of_ge (data : List Nat) (offset : Nat)
    (h : data.length ≤ offset) :
    HEAD.from_data data offset = .error .Malformed := by
  unfold HEAD.from_data
  rw [if_pos (by omega)]

theorem from_data_drop (data : List Nat) (offset : Nat)
    (h : offset < data.length) :
    HEAD.from_data data offset = HEAD.from_data (data.drop offset) 0 := by
  unfold HEAD.from_data
  rw [if_neg (by omega), if_neg (by rw [List.length_drop]; omega),
    List.drop_zero]

theorem from_data0_short4 (r : List Nat)
    (h0 : 0 < r.length) (h4 : r.length < 4) :
    HEAD.from_data r 0 = .error .Malformed := by
  have hne : ¬ (0 ≥ r.length) := by omega
  have hc : ¬ ((0 : Nat) + 4 ≤ r.length) := by omega
  simp [HEAD.from_data, readU, hne, hc]

theorem from_data0_badver (r : List Nat) (h4 : 4 ≤ r.length)
    (hv : toSigned 32 (beSlice r 0 4) ≠ 0x00010000) :
    HEAD.from_data r 0 = .error .HEADVersionIsNotSupported := by
  have hne : ¬ (0 ≥ r.length) := by omega
  have hc : (0 : Nat) + 4 ≤ r.length := by omega
  simp [HEAD.from_data, readU, hne, hc, hv]

theorem from_data0_short52 (r : List Nat)
    (h4 : 4 ≤ r.length) (h52 : r.length < 52)
    (hv : toSigned 32 (beSlice r 0 4) = 0x00010000) :
    HEAD.from_data r 0 = .error .Malformed := by
  obtain ⟨k, hk⟩ : ∃ k, r.length = k := ⟨_, rfl⟩
  rw [hk] at h4 h52
  have hne : ¬ (0 ≥ r.length) := by omega
  unfold HEAD.from_data
  rw [if_neg hne]
  simp only [readU, List.drop_zero, hk]
  interval_cases k <;> simp [hv]

theorem from_data0_ulf (r : List Nat) (h52 : 52 ≤ r.length)
    (hv : toSigned 32 (beSlice r 0 4) = 0x00010000)
    (hd : 1 < beSlice r 50 2) :
    HEAD.from_data r 0 = .error .UnknownLocationFormat := by
  have hne : ¬ (0 ≥ r.length) := by omega
  have c01 : (0 : Nat) + 4 ≤ r.length := by omega
  have c02 : (4 : Nat) + 4 ≤ r.length := by omega
  have c03 : (8 : Nat) + 4 ≤ r.length := by omega
  have c04 : (12 : Nat) + 4 ≤ r.length := by omega
  have c05 : (16 : Nat) + 2 ≤ r.length := by omega
  have c06 : (18 : Nat) + 2 ≤ r.length := by omega
  have c07 : (20 : Nat) + 8 ≤ r.length := by omega
  have c08 : (28 : Nat) + 8 ≤ r.length := by omega
  have c09 : (36 : Nat) + 2 ≤ r.length := by omega
  have c10 : (38 : Nat) + 2 ≤ r.length := by omega
  have c11 : (40 : Nat) + 2 ≤ r.length := by omega
  have c12 : (42 : Nat) + 2 ≤ r.length := by omega
  have c13 : (44 : Nat) + 2 ≤ r.length := by omega
  have c14 : (46 : Nat) + 2 ≤ r.length := by omega
  have c15 : (48 : Nat) + 2 ≤ r.length := by omega
  have c16 : (50 : Nat) + 2 ≤ r.length := by omega
  simp [HEAD.from_data, readU, hne, c01, c02, c03, c04, c05, c06, c07, c08,
    c09, c10, c11, c12, c13, c14, c15, c16, hv, hd]

theorem from_data0_short54 (r : List Nat)
    (h52 : 52 ≤ r.length) (h54 : r.length < 54)
    (hv : toSigned 32 (beSlice r 0 4) = 0x00010000)
    (hd : beSlice r 50 2 ≤ 1) :
    HEAD.from_data r 0 = .error .Malformed := by
  have hne : ¬ (0 ≥ r.length) := by omega
  have c01 : (0 : Nat) + 4 ≤ r.length := by omega
  have c02 : (4 : Nat) + 4 ≤ r.length := by omega
  have c03 : (8 : Nat) + 4 ≤ r.length := by omega
  have c04 : (12 : Nat) + 4 ≤ r.length := by omega
  have c05 : (16 : Nat) + 2 ≤ r.length := by omega
  have c06 : (18 : Nat) + 2 ≤ r.length := by omega
  have c07 : (20 : Nat) + 8 ≤ r.length := by omega
  have c08 : (28 : Nat) + 8 ≤ r.length := by omega
  have c09 : (36 : Nat) + 2 ≤ r.length := by omega
  have c10 : (38 : Nat) + 2 ≤ r.length := by omega
  have c11 : (40 : Nat) + 2 ≤ r.length := by omega
  have c12 : (42 : Nat) + 2 ≤ r.length := by omega
  have c13 : (44 : Nat) + 2 ≤ r.length := by omega
  have c14 : (46 : Nat) + 2 ≤ r.length := by omega
  have c15 : (48 : Nat) + 2 ≤ r.length := by omega
  have c16 : (50 : Nat) + 2 ≤ r.length := by omega
  have c17 : ¬ ((52 : Nat) + 2 ≤ r.length) := by omega
  have hd' : ¬ (1 < beSlice r 50 2) := by omega
  simp [HEAD.from_data, readU, hne, c01, c02, c03, c04, c05, c06, c07, c08,
    c09, c10, c11, c12, c13, c14, c15, c16, c17, hv, hd']

theorem from_data0_ok (r : List Nat) (h54 : 54 ≤ r.length)
    (hv : toSigned 32 (beSlice r 0 4) = 0x00010000)
    (hd : beSlice r 50 2 ≤ 1) :
    HEAD.from_data r 0 = .ok (decodedHEAD r) := by
  have hne : ¬ (0 ≥ r.length) := by omega
  have c01 : (0 : Nat) + 4 ≤ r.length := by omega
  have c02 : (4 : Nat) + 4 ≤ r.length := by omega
  have c03 : (8 : Nat) + 4 ≤ r.length := by omega
  have c04 : (12 : Nat) + 4 ≤ r.length := by omega
  have c05 : (16 : Nat) + 2 ≤ r.length := by omega
  have c06 : (18 : Nat) + 2 ≤ r.length := by omega
  have c07 : (20 : Nat) + 8 ≤ r.length := by omega
  have c08 : (28 : Nat) + 8 ≤ r.length := by omega
  have c09 : (36 : Nat) + 2 ≤ r.length := by omega
  have c10 : (38 : Nat) + 2 ≤ r.length := by omega
  have c11 : (40 : Nat) + 2 ≤ r.length := by omega
  have c12 : (42 : Nat) + 2 ≤ r.length := by omega
  have c13 : (44 : Nat) + 2 ≤ r.length := by omega
  have c14 : (46 : Nat) + 2 ≤ r.length := by omega
  have c15 : (48 : Nat) + 2 ≤ r.length := by omega
  have c16 : (50 : Nat) + 2 ≤ r.length := by omega
  have c17 : (52 : Nat) + 2 ≤ r.length := by omega
  have hd' : ¬ (1 < beSlice r 50 2) := by omega
  simp [HEAD.from_data, readU, hne, c01, c02, c03, c04, c05, c06, c07, c08,
    c09, c10, c11, c12, c13, c14, c15, c16, c17, hv, hd', decodedHEAD]

/-! ## Slices of the `bytes` encoding -/

theorem beSlice_bytes_00 (h : HEAD) : beSlice (HEAD.bytes h) 0 4 = i2n 32 h.version % 2 ^ 32 := by
  simp [HEAD.bytes, be2, be4, be8, beSlice, beBytesToNat]; omega

theorem beSlice_bytes_04 (h : HEAD) : beSlice (HEAD.bytes h) 4 4 = i2n 32 h.font_revision % 2 ^ 32 := by
  simp [HEAD.bytes, be2, be4, be8, beSlice, beBytesToNat]; omega

theorem beSlice_bytes_08 (h : HEAD) : beSlice (HEAD.bytes h) 8 4 = h.check_sum_adjustment % 2 ^ 32 := by
  simp [HEAD.bytes, be2, be4, be8, beSlice, beBytesToNat]; omega

theorem beSlice_bytes_12 (h : HEAD) : beSlice (HEAD.bytes h) 12 4 = h.magic_number % 2 ^ 32 := by
  simp [HEAD.bytes, be2, be4, be8, beSlice, beBytesToNat]; omega

theorem beSlice_bytes_16 (h : HEAD) : beSlice (HEAD.bytes h) 16 2 = h.flags % 2 ^ 16 := by
  simp [HEAD.bytes, be2, be4, be8, beSlice, beBytesToNat]; omega

theorem beSlice_bytes_18 (h : HEAD) : beSlice (HEAD.bytes h) 18 2 = h.units_per_em % 2 ^ 16 := by
  simp [HEAD.bytes, be2, be4, be8, beSlice, beBytesToNat]; omega

theorem beSlice_bytes_20 (h : HEAD) : beSlice (HEAD.bytes h) 20 8 = i2n 64 h.created % 2 ^ 64 := by
  simp [HEAD.bytes, be2, be4, be8, beSlice, beBytesToNat]; omega

theorem beSlice_bytes_28 (h : HEAD) : beSlice (HEAD.bytes h) 28 8 = i2n 64 h.modified % 2 ^ 64 := by
  simp [HEAD.bytes, be2, be4, be8, beSlice, beBytesToNat]; omega

theorem beSlice_bytes_36 (h : HEAD) : beSlice (HEAD.bytes h) 36 2 = i2n 16 h.x_min % 2 ^ 16 := by
  simp [HEAD.bytes, be2, be4, be8, beSlice, beBytesToNat]; omega

theorem beSlice_bytes_38 (h : HEAD) : beSlice (HEAD.bytes h) 38 2 = i2n 16 h.y_min % 2 ^ 16 := by
  simp [HEAD.bytes, be2, be4, be8, beSlice, beBytesToNat]; omega

theorem beSlice_bytes_40 (h : HEAD) : beSlice (HEAD.bytes h) 40 2 = i2n 16 h.x_max % 2 ^ 16 := by
  simp [HEAD.bytes, be2, be4, be8, beSlice, beBytesToNat]; omega

theorem beSlice_bytes_42 (h : HEAD) : beSlice (HEAD.bytes h) 42 2 = i2n 16 h.y_max % 2 ^ 16 := by
  simp [HEAD.bytes, be2, be4, be8, beSlice, beBytesToNat]; omega

theorem beSlice_bytes_44 (h : HEAD) : beSlice (HEAD.bytes h) 44 2 = h.mac_style % 2 ^ 16 := by
  simp [HEAD.bytes, be2, be4, be8, beSlice, beBytesToNat]; omega

theorem beSlice_bytes_46 (h : HEAD) : beSlice (HEAD.bytes h) 46 2 = h.lowest_rec_ppem % 2 ^ 16 := by
  simp [HEAD.bytes, be2, be4, be8, beSlice, beBytesToNat]; omega

theorem beSlice_bytes_48 (h : HEAD) : beSlice (HEAD.bytes h) 48 2 = i2n 16 h.font_direction_hint % 2 ^ 16 := by
  simp [HEAD.bytes, be2, be4, be8, beSlice, beBytesToNat]; omega

theorem beSlice_bytes_50 (h : HEAD) : beSlice (HEAD.bytes h) 50 2 = h.index_to_loc_format % 2 ^ 16 := by
  simp [HEAD.bytes, be2, be4, be8, beSlice, beBytesToNat]; omega

theorem beSlice_bytes_52 (h : HEAD) : beSlice (HEAD.bytes h) 52 2 = i2n 16 h.glyph_data_format % 2 ^ 16 := by
  simp [HEAD.bytes, be2, be4, be8, beSlice, beBytesToNat]; omega

theorem bytes_length (h : HEAD) : (HEAD.bytes h).length = 54 := by
  simp [HEAD.bytes, be2, be4, be8]

theorem bytes_bytelt (h : HEAD) : ∀ b ∈ HEAD.bytes h, b < 256 := by
  have hbe2 : ∀ n : Nat, ∀ b ∈ be2 n, b < 256 := by
    intro n b hb
    simp only [be2, List.mem_cons, List.not_mem_nil, or_false] at hb
    rcases hb with rfl | rfl <;> exact Nat.mod_lt _ (by norm_num)
  have hbe4 : ∀ n : Nat, ∀ b ∈ be4 n, b < 256 := by
    intro n b hb
    simp only [be4, List.mem_cons, List.not_mem_nil, or_false] at hb
    rcases hb with rfl | rfl | rfl | rfl <;> exact Nat.mod_lt _ (by norm_num)
  have hbe8 : ∀ n : Nat, ∀ b ∈ be8 n, b < 256 := by
    intro n b hb
    simp only [be8, List.mem_cons, List.not_mem_nil, or_false] at hb
    rcases hb with rfl | rfl | rfl | rfl | rfl | rfl | rfl | rfl <;>
      exact Nat.mod_lt _ (by norm_num)
  intro b hb
  simp only [HEAD.bytes, List.mem_append] at hb
  rcases hb with ((((((((((((((((hb | hb) | hb) | hb) | hb) | hb) | hb) |
      hb) | hb) | hb) | hb) | hb) | hb) | hb) | hb) | hb) | hb) <;>
    first
      | exact hbe2 _ _ hb
      | exact hbe4 _ _ hb
      | exact hbe8 _ _ hb

/-! ## Arithmetic facts about the two's-complement conversions -/

theorem i2n16_lt (i : Int) : i2n 16 i < 2 ^ 16 := by
  unfold i2n; omega

theorem i2n32_lt (i : Int) : i2n 32 i < 2 ^ 32 := by
  unfold i2n; omega

theorem i2n64_lt (i : Int) : i2n 64 i < 2 ^ 64 := by
  unfold i2n; omega

theorem i2n_toSigned16 (n : Nat) (h : n < 2 ^ 16) :
    i2n 16 (toSigned 16 n) = n := by
  unfold toSigned i2n; split <;> omega

theorem i2n_toSigned32 (n : Nat) (h : n < 2 ^ 32) :
    i2n 32 (toSigned 32 n) = n := by
  unfold toSigned i2n; split <;> omega

theorem i2n_toSigned64 (n : Nat) (h : n < 2 ^ 64) :
    i2n 64 (toSigned 64 n) = n := by
  unfold toSigned i2n; split <;> omega

/-! ## Bounds on big-endian values read from genuine byte lists -/

theorem beBytesToNat_aux (bs : List Nat) (hB : ∀ b ∈ bs, b < 256)
    (acc : Nat) :
    bs.foldl (fun acc b => acc * 256 + b) acc < (acc + 1) * 256 ^ bs.length := by
  induction bs generalizing acc with
  | nil => simp
  | cons b bs ih =>
    simp only [List.foldl_cons, List.length_cons]
    have hb : b < 256 := hB b (by simp)
    calc bs.foldl (fun acc b => acc * 256 + b) (acc * 256 + b)
        < (acc * 256 + b + 1) * 256 ^ bs.length :=
          ih (fun x hx => hB x (by simp [hx])) _
      _ ≤ ((acc + 1) * 256) * 256 ^ bs.length :=
          Nat.mul_le_mul_right _ (by omega)
      _ = (acc + 1) * 256 ^ (bs.length + 1) := by ring

theorem beBytesToNat_lt (bs : List Nat) (hB : ∀ b ∈ bs, b < 256) :
    beBytesToNat bs < 256 ^ bs.length := by
  simpa using beBytesToNat_aux bs hB 0

theorem beSlice_lt (l : List Nat) (p c : Nat) (hB : ∀ b ∈ l, b < 256) :
    beSlice l p c < 2 ^ (8 * c) := by
  unfold beSlice
  have h1 := beBytesToNat_lt ((l.drop p).take c)
    (fun b hb => hB b (List.drop_subset _ _ (List.take_subset _ _ hb)))
  have h2 : ((l.drop p).take c).length ≤ c := by
    simp [List.length_take]
  calc beBytesToNat ((l.drop p).take c)
      < 256 ^ ((l.drop p).take c).length := h1
    _ ≤ 256 ^ c := Nat.pow_le_pow_right (by norm_num) h2
    _ = 2 ^ (8 * c) := by rw [show (256 : Nat) = 2 ^ 8 by norm_num, ← pow_mul]

/-! ## Only the 54 bytes at the offset matter -/

theorem beSlice_take (l : List Nat) (m p c : Nat) (h : p + c ≤ m) :
    beSlice (l.take m) p c = beSlice l p c := by
  unfold beSlice
  rw [List.drop_take, List.take_take, Nat.min_eq_left (by omega)]

/-! ## Inversion: what a successful decode implies -/

theorem from_data_ok_inv (data : List Nat) (offset : Nat) (h : HEAD)
    (H : HEAD.from_data data offset = .ok h) :
    offset + 54 ≤ data.length ∧
    toSigned 32 (beSlice (data.drop offset) 0 4) = 0x00010000 ∧
    beSlice (data.drop offset) 50 2 ≤ 1 ∧
    h = decodedHEAD (data.drop offset) := by
  by_cases h1 : offset < data.length
  · rw [from_data_drop data offset h1] at H
    have hlen : (data.drop offset).length = data.length - offset :=
      List.length_drop _ _
    by_cases h4 : 4 ≤ (data.drop offset).length
    · by_cases hv : toSigned 32 (beSlice (data.drop offset) 0 4) = 0x00010000
      · by_cases h52 : 52 ≤ (data.drop offset).length
        · by_cases hd : beSlice (data.drop offset) 50 2 ≤ 1
          · by_cases h54 : 54 ≤ (data.drop offset).length
            · rw [from_data0_ok _ h54 hv hd] at H
              have : decodedHEAD (data.drop offset) = h := by
                simpa using H
              exact ⟨by omega, hv, hd, this.symm⟩
            · rw [from_data0_short54 _ h52 (by omega) hv hd] at H
              simp at H
          · rw [from_data0_ulf _ h52 hv (by omega)] at H
            simp at H
        · rw [from_data0_short52 _ h4 (by omega) hv] at H
          simp at H
      · rw [from_data0_badver _ h4 hv] at H
        simp at H
    · rw [from_data0_short4 _ (by omega) (by omega)] at H
      simp at H
  · rw [from_data_of_ge data offset (by omega)] at H
    simp at H

/-! ## Decode after re-encode -/

theorem decodedHEAD_bytes (r : List Nat) (hB : ∀ b ∈ r, b < 256) :
    decodedHEAD (HEAD.bytes (decodedHEAD r)) = decodedHEAD r := by
  have s00 : beSlice r 0 4 < 2 ^ 32 := by simpa using beSlice_lt r 0 4 hB
  have s04 : beSlice r 4 4 < 2 ^ 32 := by simpa using beSlice_lt r 4 4 hB
  have s08 : beSlice r 8 4 < 2 ^ 32 := by simpa using beSlice_lt r 8 4 hB
  have s12 : beSlice r 12 4 < 2 ^ 32 := by simpa using beSlice_lt r 12 4 hB
  have s16 : beSlice r 16 2 < 2 ^ 16 := by simpa using beSlice_lt r 16 2 hB
  have s18 : beSlice r 18 2 < 2 ^ 16 := by simpa using beSlice_lt r 18 2 hB
  have s20 : beSlice r 20 8 < 2 ^ 64 := by simpa using beSlice_lt r 20 8 hB
  have s28 : beSlice r 28 8 < 2 ^ 64 := by simpa using beSlice_lt r 28 8 hB
  have s36 : beSlice r 36 2 < 2 ^ 16 := by simpa using beSlice_lt r 36 2 hB
  have s38 : beSlice r 38 2 < 2 ^ 16 := by simpa using beSlice_lt r 38 2 hB
  have s40 : beSlice r 40 2 < 2 ^ 16 := by simpa using beSlice_lt r 40 2 hB
  have s42 : beSlice r 42 2 < 2 ^ 16 := by simpa using beSlice_lt r 42 2 hB
  have s44 : beSlice r 44 2 < 2 ^ 16 := by simpa using beSlice_lt r 44 2 hB
  have s46 : beSlice r 46 2 < 2 ^ 16 := by simpa using beSlice_lt r 46 2 hB
  have s48 : beSlice r 48 2 < 2 ^ 16 := by simpa using beSlice_lt r 48 2 hB
  have s50 : beSlice r 50 2 < 2 ^ 16 := by simpa using beSlice_lt r 50 2 hB
  have s52 : beSlice r 52 2 < 2 ^ 16 := by simpa using beSlice_lt r 52 2 hB
  have m00 : i2n 32 (toSigned 32 (beSlice r 0 4)) % 2 ^ 32 = beSlice r 0 4 := by
    rw [i2n_toSigned32 _ s00, Nat.mod_eq_of_lt s00]
  have m04 : i2n 32 (toSigned 32 (beSlice r 4 4)) % 2 ^ 32 = beSlice r 4 4 := by
    rw [i2n_toSigned32 _ s04, Nat.mod_eq_of_lt s04]
  have m08 : beSlice r 8 4 % 2 ^ 32 = beSlice r 8 4 := Nat.mod_eq_of_lt s08
  have m12 : beSlice r 12 4 % 2 ^ 32 = beSlice r 12 4 := Nat.mod_eq_of_lt s12
  have m16 : beSlice r 16 2 % 2 ^ 16 = beSlice r 16 2 := Nat.mod_eq_of_lt s16
  have m18 : beSlice r 18 2 % 2 ^ 16 = beSlice r 18 2 := Nat.mod_eq_of_lt s18
  have m20 : i2n 64 (toSigned 64 (beSlice r 20 8)) % 2 ^ 64 = beSlice r 20 8 := by
    rw [i2n_toSigned64 _ s20, Nat.mod_eq_of_lt s20]
  have m28 : i2n 64 (toSigned 64 (beSlice r 28 8)) % 2 ^ 64 = beSlice r 28 8 := by
    rw [i2n_toSigned64 _ s28, Nat.mod_eq_of_lt s28]
  have m36 : i2n 16 (toSigned 16 (beSlice r 36 2)) % 2 ^ 16 = beSlice r 36 2 := by
    rw [i2n_toSigned16 _ s36, Nat.mod_eq_of_lt s36]
  have m38 : i2n 16 (toSigned 16 (beSlice r 38 2)) % 2 ^ 16 = beSlice r 38 2 := by
    rw [i2n_toSigned16 _ s38, Nat.mod_eq_of_lt s38]
  have m40 : i2n 16 (toSigned 16 (beSlice r 40 2)) % 2 ^ 16 = beSlice r 40 2 := by
    rw [i2n_toSigned16 _ s40, Nat.mod_eq_of_lt s40]
  have m42 : i2n 16 (toSigned 16 (beSlice r 42 2)) % 2 ^ 16 = beSlice r 42 2 := by
    rw [i2n_toSigned16 _ s42, Nat.mod_eq_of_lt s42]
  have m44 : beSlice r 44 2 % 2 ^ 16 = beSlice r 44 2 := Nat.mod_eq_of_lt s44
  have m46 : beSlice r 46 2 % 2 ^ 16 = beSlice r 46 2 := Nat.mod_eq_of_lt s46
  have m48 : i2n 16 (toSigned 16 (beSlice r 48 2)) % 2 ^ 16 = beSlice r 48 2 := by
    rw [i2n_toSigned16 _ s48, Nat.mod_eq_of_lt s48]
  have m50 : beSlice r 50 2 % 2 ^ 16 = beSlice r 50 2 := Nat.mod_eq_of_lt s50
  have m52 : i2n 16 (toSigned 16 (beSlice r 52 2)) % 2 ^ 16 = beSlice r 52 2 := by
    rw [i2n_toSigned16 _ s52, Nat.mod_eq_of_lt s52]
  simp only [decodedHEAD, beSlice_bytes_00, beSlice_bytes_04, beSlice_bytes_08,
    beSlice_bytes_12, beSlice_bytes_16, beSlice_bytes_18, beSlice_bytes_20,
    beSlice_bytes_28, beSlice_bytes_36, beSlice_bytes_38, beSlice_bytes_40,
    beSlice_bytes_42, beSlice_bytes_44, beSlice_bytes_46, beSlice_bytes_48,
    beSlice_bytes_50, beSlice_bytes_52, m00, m04, m08, m12, m16, m18, m20,
    m28, m36, m38, m40, m42, m44, m46, m48, m50, m52]

theorem from_data_bytes_of_ok (data : List Nat) (offset : Nat) (r : HEAD)
    (hB : ∀ b ∈ data, b < 256)
    (H : HEAD.from_data data offset = .ok r) :
    HEAD.from_data (HEAD.bytes r) 0 = .ok r := by
  obtain ⟨h54, hv, hd, hr⟩ := from_data_ok_inv data offset r H
  subst hr
  have hBg : ∀ b ∈ data.drop offset, b < 256 :=
    fun b hb => hB b (List.drop_subset _ _ hb)
  have s00 : beSlice (data.drop offset) 0 4 < 2 ^ 32 := by
    simpa using beSlice_lt (data.drop offset) 0 4 hBg
  have s50 : beSlice (data.drop offset) 50 2 < 2 ^ 16 := by
    simpa using beSlice_lt (data.drop offset) 50 2 hBg
  have hv' : toSigned 32
      (beSlice (HEAD.bytes (decodedHEAD (data.drop offset))) 0 4) = 0x00010000 := by
    rw [beSlice_bytes_00]
    show toSigned 32
      (i2n 32 (toSigned 32 (beSlice (data.drop offset) 0 4)) % 2 ^ 32) = _
    rw [i2n_toSigned32 _ s00, Nat.mod_eq_of_lt s00]
    exact hv
  have hd' : beSlice (HEAD.bytes (decodedHEAD (data.drop offset))) 50 2 ≤ 1 := by
    rw [beSlice_bytes_50]
    show beSlice (data.drop offset) 50 2 % 2 ^ 16 ≤ 1
    rw [Nat.mod_eq_of_lt s50]
    exact hd
  rw [from_data0_ok _ (by simp [bytes_length]) hv' hd',
    decodedHEAD_bytes _ hBg]

/-! ## Concrete buffers used as witnesses and counterexamples -/

/-- A 52-byte region: valid version `0x00010000`, all middle fields zero,
and an out-of-range location-format discriminant `2` at positions 50–51.
The 54-byte fixed layout is NOT fully present (`glyph_data_format` is
missing), yet the discriminant itself is. -/
def c1data : List Nat := [0, 1, 0, 0] ++ List.replicate 46 0 ++ [0, 2]

/-- A 51-byte region with a valid version: too short even for the
location-format discriminant. -/
def c1short : List Nat := [0, 1, 0, 0] ++ List.replicate 47 0

/-- A full 54-byte header: valid version, zero fields, discriminant `2`. -/
def c4buf : List Nat := [0, 1, 0, 0] ++ List.replicate 46 0 ++ [0, 2, 0, 0]

/-- A valid 54-byte header: version `0x00010000`, units-per-em `2048`
(bytes `[8, 0]` at positions 18–19), everything else zero, location
format `0` (Short). -/
def c8buf : List Nat :=
  [0, 1, 0, 0] ++ List.replicate 14 0 ++ [8, 0] ++ List.replicate 34 0

/-! ## The claims -/

/-- C1, counterexample: a 52-byte region (in-bounds offset 0, fewer than
the full 54-byte layout remaining) with a valid version and discriminant
value 2 at position 50 makes `HEAD::from_data` return
`UnknownLocationFormat`, not `Malformed` — refuting the claim that a
structurally short buffer is always reported as `Malformed` and that
discriminant validation happens only after all 54 bytes are consumed. -/
theorem C1_short_discriminant_cex :
    c1data.length = 52 ∧
    toSigned 32 (beSlice c1data 0 4) = 0x00010000 ∧
    beSlice c1data 50 2 = 2 ∧
    HEAD.from_data c1data 0 = .error .UnknownLocationFormat ∧
    HEAD.from_data c1data 0 ≠ .error .Malformed := by
  have hres : HEAD.from_data c1data 0 = .error .UnknownLocationFormat := by rfl
  refine ⟨by rfl, by decide, by rfl, hres, ?_⟩
  rw [hres]
  intro hcon
  exact absurd (Except.error.inj hcon) (by decide)

/-- C1 (amended): discriminant validation is performed after the first 52
bytes of the fixed layout (through the `index_to_loc_format` field) have
been consumed, not after all 54.  Hence for every byte slice and in-bounds
offset with fewer than 52 bytes remaining, `HEAD::from_data` never returns
`UnknownLocationFormat`, and — when the version field is present and
valid — it returns `Malformed`. -/
theorem C1_short_region_amended (data : List Nat) (offset : Nat)
    (h1 : offset < data.length) (h2 : data.length - offset < 52) :
    HEAD.from_data data offset ≠ .error .UnknownLocationFormat ∧
    (4 ≤ data.length - offset →
      toSigned 32 (beSlice (data.drop offset) 0 4) = 0x00010000 →
      HEAD.from_data data offset = .error .Malformed) := by
  have hlen : (data.drop offset).length = data.length - offset :=
    List.length_drop _ _
  constructor
  · intro H
    rw [from_data_drop data offset h1] at H
    by_cases h4 : 4 ≤ (data.drop offset).length
    · by_cases hv : toSigned 32 (beSlice (data.drop offset) 0 4) = 0x00010000
      · rw [from_data0_short52 _ h4 (by omega) hv] at H
        simp at H
      · rw [from_data0_badver _ h4 hv] at H
        simp at H
    · rw [from_data0_short4 _ (by omega) (by omega)] at H
      simp at H
  · intro h4 hv
    rw [from_data_drop data offset h1]
    exact from_data0_short52 _ (by omega) (by omega) hv

/-- Witness for C1 (amended) at the concrete 51-byte region `c1short`. -/
theorem C1_short_region_amended_witness :
    HEAD.from_data c1short 0 ≠ .error .UnknownLocationFormat ∧
    HEAD.from_data c1short 0 = .error .Malformed := by
  have h := C1_short_region_amended c1short 0 (by decide) (by decide)
  exact ⟨h.1, h.2 (by decide) (by decide)⟩

/-- C2: for every record successfully returned by `HEAD::from_data` from a
byte slice, decoding the encoding produced by `HEAD::bytes` at offset 0
succeeds and yields the same record field for field. -/
theorem C2_decode_encode_roundtrip (data : List Nat) (offset : Nat)
    (r : HEAD) (hB : ∀ b ∈ data, b < 256)
    (H : HEAD.from_data data offset = .ok r) :
    HEAD.from_data (HEAD.bytes r) 0 = .ok r :=
  from_data_bytes_of_ok data offset r hB H

/-- Witness for C2 on the concrete valid header `c8buf`. -/
theorem C2_decode_encode_roundtrip_witness :
    HEAD.from_data (HEAD.bytes (decodedHEAD c8buf)) 0 =
      .ok (decodedHEAD c8buf) :=
  C2_decode_encode_roundtrip c8buf 0 (decodedHEAD c8buf) (by decide) (by rfl)

/-- C3: whenever the 4-byte version field reads successfully but differs
from the sentinel `0x00010000`, `HEAD::from_data` returns
`HEADVersionIsNotSupported`; in particular decoding the encoding of the
default (zeroed) record fails with exactly that variant. -/
theorem C3_version_gate :
    (∀ (data : List Nat) (offset : Nat),
      offset < data.length → offset + 4 ≤ data.length →
      toSigned 32 (beSlice (data.drop offset) 0 4) ≠ 0x00010000 →
      HEAD.from_data data offset = .error .HEADVersionIsNotSupported) ∧
    HEAD.from_data (HEAD.bytes HEAD.default) 0 =
      .error .HEADVersionIsNotSupported := by
  constructor
  · intro data offset h1 h4 hv
    rw [from_data_drop data offset h1]
    exact from_data0_badver _ (by rw [List.length_drop]; omega) hv
  · rfl

/-- Witness for C3 at the concrete 4-byte buffer of zeros. -/
theorem C3_version_gate_witness :
    HEAD.from_data [0, 0, 0, 0] 0 = .error .HEADVersionIsNotSupported :=
  C3_version_gate.1 [0, 0, 0, 0] 0 (by decide) (by decide) (by decide)

/-- C4: a full-length (at least 54 bytes after the offset) buffer with the
sentinel version but a location-format discriminant greater than 1 fails
with the distinct `UnknownLocationFormat` variant, not with `Malformed`. -/
theorem C4_unknown_location_format (data : List Nat) (offset : Nat)
    (h54 : offset + 54 ≤ data.length)
    (hv : toSigned 32 (beSlice (data.drop offset) 0 4) = 0x00010000)
    (hd : 1 < beSlice (data.drop offset) 50 2) :
    HEAD.from_data data offset = .error .UnknownLocationFormat ∧
    HEAD.from_data data offset ≠ .error .Malformed := by
  have hres : HEAD.from_data data offset = .error .UnknownLocationFormat := by
    rw [from_data_drop data offset (by omega)]
    exact from_data0_ulf _ (by rw [List.length_drop]; omega) hv hd
  refine ⟨hres, ?_⟩
  rw [hres]
  intro hcon
  exact absurd (Except.error.inj hcon) (by decide)

/-- Witness for C4 at the concrete 54-byte buffer `c4buf` with
discriminant 2. -/
theorem C4_unknown_location_format_witness :
    HEAD.from_data c4buf 0 = .error .UnknownLocationFormat :=
  (C4_unknown_location_format c4buf 0 (by decide) (by decide) (by decide)).1

/-- C5: for every offset at or past the end of the slice, `HEAD::from_data`
fails with `Malformed`. -/
theorem C5_offset_out_of_bounds (data : List Nat) (offset : Nat)
    (h : data.length ≤ offset) :
    HEAD.from_data data offset = .error .Malformed :=
  from_data_of_ge data offset h

/-- Witness for C5 at a concrete 3-byte buffer and offset 5. -/
theorem C5_offset_out_of_bounds_witness :
    HEAD.from_data [0, 1, 2] 5 = .error .Malformed :=
  C5_offset_out_of_bounds [0, 1, 2] 5 (by decide)

/-- C6: truncating any valid encoded header (54 bytes, sentinel version,
discriminant 0 or 1) to its first N bytes, 0 < N < 54, makes decoding at
offset 0 fail with `Malformed`. -/
theorem C6_truncation_malformed (data : List Nat)
    (hlen : data.length = 54)
    (hv : toSigned 32 (beSlice data 0 4) = 0x00010000)
    (hd : beSlice data 50 2 ≤ 1)
    (N : Nat) (h0 : 0 < N) (hN : N < 54) :
    HEAD.from_data (data.take N) 0 = .error .Malformed := by
  have hlt : (data.take N).length = N := by
    rw [List.length_take]; omega
  by_cases h4 : 4 ≤ N
  · have hv' : toSigned 32 (beSlice (data.take N) 0 4) = 0x00010000 := by
      rw [beSlice_take data N 0 4 (by omega)]; exact hv
    by_cases h52 : 52 ≤ N
    · have hd' : beSlice (data.take N) 50 2 ≤ 1 := by
        rw [beSlice_take data N 50 2 (by omega)]; exact hd
      exact from_data0_short54 _ (by omega) (by omega) hv' hd'
    · exact from_data0_short52 _ (by omega) (by omega) hv'
  · exact from_data0_short4 _ (by omega) (by omega)

/-- Witness for C6: the valid header `c8buf` truncated to 53 bytes. -/
theorem C6_truncation_malformed_witness :
    HEAD.from_data (c8buf.take 53) 0 = .error .Malformed :=
  C6_truncation_malformed c8buf (by decide) (by decide) (by decide) 53
    (by decide) (by decide)

/-- C7: every record produced by `HEAD::from_data` has
`index_to_loc_format` 0 or 1, so the `location_format` accessor maps it
totally — `Short` for 0 and `Long` for 1 — and its `unreachable!()` arm
(modelled as `none`) is never taken. -/
theorem C7_location_format_total (data : List Nat) (offset : Nat) (h : HEAD)
    (H : HEAD.from_data data offset = .ok h) :
    (h.index_to_loc_format = 0 ∧ h.location_format = some .Short) ∨
    (h.index_to_loc_format = 1 ∧ h.location_format = some .Long) := by
  obtain ⟨-, -, hd, hr⟩ := from_data_ok_inv data offset h H
  subst hr
  rcases Nat.le_one_iff_eq_zero_or_eq_one.mp hd with h0 | h1
  · left
    exact ⟨by simp [decodedHEAD, h0],
      by simp [HEAD.location_format, decodedHEAD, h0]⟩
  · right
    exact ⟨by simp [decodedHEAD, h1],
      by simp [HEAD.location_format, decodedHEAD, h1]⟩

/-- Witness for C7 on the concrete valid header `c8buf`. -/
theorem C7_location_format_total_witness :
    ((decodedHEAD c8buf).index_to_loc_format = 0 ∧
      (decodedHEAD c8buf).location_format = some .Short) ∨
    ((decodedHEAD c8buf).index_to_loc_format = 1 ∧
      (decodedHEAD c8buf).location_format = some .Long) :=
  C7_location_format_total c8buf 0 (decodedHEAD c8buf) (by rfl)

/-- C8: on the concrete valid 54-byte header with version `0x00010000`,
units-per-em 2048 and index-to-loc-format 0, decoding at offset 0
succeeds; the unit-scale accessor returns exactly 2048, the format
accessor returns `Short`, and re-encoding reproduces the 54 bytes. -/
theorem C8_concrete_scenario :
    HEAD.from_data c8buf 0 = .ok (decodedHEAD c8buf) ∧
    (decodedHEAD c8buf).units_per_em_value = 2048 ∧
    (decodedHEAD c8buf).location_format = some LocationFormat.Short ∧
    HEAD.bytes (decodedHEAD c8buf) = c8buf := by
  refine ⟨by rfl, ?_, by rfl, by rfl⟩
  norm_num [HEAD.units_per_em_value, decodedHEAD, c8buf, beSlice, beBytesToNat]

/-- C9: `HEAD::from_data` succeeds exactly when the offset is in bounds,
at least 54 bytes remain, the big-endian signed 32-bit version equals
`0x00010000`, and the big-endian 16-bit discriminant at offset+50 is at
most 1; the resulting record is the big-endian decoding of the 54-byte
region (each field from its documented byte range). -/
theorem C9_ok_characterization (data : List Nat) (offset : Nat) (h : HEAD) :
    HEAD.from_data data offset = .ok h ↔
      (offset < data.length ∧ 54 ≤ data.length - offset ∧
       toSigned 32 (beSlice (data.drop offset) 0 4) = 0x00010000 ∧
       beSlice (data.drop offset) 50 2 ≤ 1 ∧
       h = decodedHEAD (data.drop offset)) := by
  constructor
  · intro H
    obtain ⟨h54, hv, hd, hr⟩ := from_data_ok_inv data offset h H
    exact ⟨by omega, by omega, hv, hd, hr⟩
  · rintro ⟨h1, h54, hv, hd, rfl⟩
    rw [from_data_drop data offset h1]
    exact from_data0_ok _ (by rw [List.length_drop]; omega) hv hd

/-- C10: the result of `HEAD::from_data` depends only on the slice length
and the (at most) 54 bytes starting at the offset: two slices of equal
length that agree there decode identically. -/
theorem C10_locality (d1 d2 : List Nat) (offset : Nat)
    (hlen : d1.length = d2.length)
    (hagree : (d1.drop offset).take 54 = (d2.drop offset).take 54) :
    HEAD.from_data d1 offset = HEAD.from_data d2 offset := by
  have hsl : ∀ p c : Nat, p + c ≤ 54 →
      beSlice (d1.drop offset) p c = beSlice (d2.drop offset) p c := by
    intro p c hpc
    rw [← beSlice_take (d1.drop offset) 54 p c hpc,
      ← beSlice_take (d2.drop offset) 54 p c hpc, hagree]
  have hrl1 : (d1.drop offset).length = d1.length - offset :=
    List.length_drop _ _
  have hrl2 : (d2.drop offset).length = d2.length - offset :=
    List.length_drop _ _
  by_cases h1 : offset < d1.length
  · rw [from_data_drop d1 offset h1, from_data_drop d2 offset (by omega)]
    by_cases h4 : 4 ≤ (d1.drop offset).length
    · by_cases hv : toSigned 32 (beSlice (d1.drop offset) 0 4) = 0x00010000
      · have hv2 : toSigned 32 (beSlice (d2.drop offset) 0 4) = 0x00010000 := by
          rw [← hsl 0 4 (by omega)]; exact hv
        by_cases h52 : 52 ≤ (d1.drop offset).length
        · by_cases hd : 1 < beSlice (d1.drop offset) 50 2
          · rw [from_data0_ulf _ h52 hv hd,
              from_data0_ulf _ (by omega) hv2
                (by rw [← hsl 50 2 (by omega)]; exact hd)]
          · by_cases h54 : 54 ≤ (d1.drop offset).length
            · have hdec : decodedHEAD (d1.drop offset) =
                  decodedHEAD (d2.drop offset) := by
                unfold decodedHEAD
                rw [hsl 0 4 (by omega), hsl 4 4 (by omega),
                  hsl 8 4 (by omega), hsl 12 4 (by omega),
                  hsl 16 2 (by omega), hsl 18 2 (by omega),
                  hsl 20 8 (by omega), hsl 28 8 (by omega),
                  hsl 36 2 (by omega), hsl 38 2 (by omega),
                  hsl 40 2 (by omega), hsl 42 2 (by omega),
                  hsl 44 2 (by omega), hsl 46 2 (by omega),
                  hsl 48 2 (by omega), hsl 50 2 (by omega),
                  hsl 52 2 (by omega)]
              rw [from_data0_ok _ h54 hv (by omega),
                from_data0_ok _ (by omega) hv2
                  (by rw [← hsl 50 2 (by omega)]; omega), hdec]
            · rw [from_data0_short54 _ h52 (by omega) hv (by omega),
                from_data0_short54 _ (by omega) (by omega) hv2
                  (by rw [← hsl 50 2 (by omega)]; omega)]
        · rw [from_data0_short52 _ h4 (by omega) hv,
            from_data0_short52 _ (by omega) (by omega) hv2]
      · rw [from_data0_badver _ h4 hv,
          from_data0_badver _ (by omega)
            (by rw [← hsl 0 4 (by omega)]; exact hv)]
    · rw [from_data0_short4 _ (by omega) (by omega),
        from_data0_short4 _ (by omega) (by omega)]
  · rw [from_data_of_ge d1 offset (by omega),
      from_data_of_ge d2 offset (by omega)]

/-- Witness for C10: two 55-byte buffers that differ only in the byte
before the offset decode identically at offset 1. -/
theorem C10_locality_witness :
    HEAD.from_data (7 :: c8buf) 1 = HEAD.from_data (9 :: c8buf) 1 :=
  C10_locality (7 :: c8buf) (9 :: c8buf) 1 (by decide) (by decide)

end TrueType
